import Mathlib

/-!
Verification of the resilient backend-discovery client and navigation state
machine of `src/App.jsx`.

The embedding models:
* `tryDeriveBackendURLs` — the Endpoint Resolver (candidate base-URL list);
* `apiGet` — the Resilient Fetch Client (sequential candidate scan);
* the bootstrap effect and the stage/selection state machine
  (`goBack`, `confirmTech`, `confirmFocus`).

JavaScript string operations are modelled exactly: `String.prototype.replace`
with a string pattern replaces only the first occurrence; `includes` is a
substring test; the trailing-slash regex strips at most one final `/`;
`new Set` de-duplication keeps the first occurrence in insertion order.
-/

namespace Discovery

/-- JS `s.includes(pat)` on character lists: does `pat` occur as a
contiguous sublist of `s`? -/
def containsSubL (pat : List Char) : List Char → Bool
  | [] => pat.isPrefixOf ([] : List Char)
  | c :: rest => pat.isPrefixOf (c :: rest) || containsSubL pat rest

/-- JS `s.includes(pat)` on strings. -/
def includesStr (s pat : String) : Bool :=
  containsSubL pat.data s.data

/-- JS `s.replace(pat, rep)` with a *string* pattern on character lists:
replace only the first occurrence of `pat`; if `pat` does not occur, the
input is returned unchanged. -/
def replaceFirstL (pat rep : List Char) : List Char → List Char
  | [] => if pat.isPrefixOf ([] : List Char) then rep else []
  | c :: rest =>
    if pat.isPrefixOf (c :: rest) then rep ++ (c :: rest).drop pat.length
    else c :: replaceFirstL pat rep rest

/-- JS `s.replace(pat, rep)` with a string pattern, on strings. -/
def replaceFirst (s pat rep : String) : String :=
  ⟨replaceFirstL pat.data rep.data s.data⟩

/-- JS `u.replace(/\/$/, '')`: drop one trailing `/` when present. -/
def stripTrailingSlash (s : String) : String :=
  if s.data.getLast? = some '/' then ⟨s.data.dropLast⟩ else s

/-- Model of `Array.from(new Set xs)`: de-duplicate keeping the first occurrence of
each element, preserving insertion order; `seen` accumulates the elements
already emitted. -/
def dedupFirstAux (seen : List String) : List String → List String
  | [] => []
  | x :: rest =>
    if x ∈ seen then dedupFirstAux seen rest
    else x :: dedupFirstAux (x :: seen) rest

/-- Model of `Array.from(new Set xs)`, with `seen = []`. -/
def dedupFirst (xs : List String) : List String :=
  dedupFirstAux [] xs

/-- The Endpoint Resolver `tryDeriveBackendURLs` of `App.jsx`.

`envUrl` models `import.meta.env.VITE_BACKEND_URL` (empty string when the
variable is unset or empty — both are falsy in JS); `protocol` and `host`
model `window.location.protocol` / `window.location.host`.  Mirrors the
source line by line: optional override, the unconditional port-substitution
candidate, the Modal-style host transformation guarded only by
`host.includes('-3000')`, the empty-string fallback, then normalisation
(strip trailing `/`) and de-duplication. -/
def tryDeriveBackendURLs (envUrl protocol host : String) : List String :=
  let urls0 : List String := if envUrl ≠ "" then [envUrl] else []
  let byPort := replaceFirst host "3000" "8000"
  let urls1 := urls0 ++ [protocol ++ "//" ++ byPort]
  let urls2 :=
    if includesStr host "-3000" then
      urls1 ++ [protocol ++ "//" ++
        replaceFirst (replaceFirst host "-3000" "-8000") ".run" "-api.run"]
    else urls1
  let urls3 := urls2 ++ [""]
  dedupFirst (urls3.map stripTrailingSlash)

/-- Outcome of one physical `fetch(url)` attempt (plus the subsequent
`res.json()` parse), as observed by `apiGet`:
* `ok body` — `res.ok` and the body parses; `body` is the opaque parsed JSON;
* `badStatus s` — the response arrived with a non-successful status `s`;
* `transport m` — `fetch` itself threw (DNS, refused connection, timeout);
* `badJson m` — `res.ok` held but `res.json()` threw. -/
inductive Outcome where
  | ok (body : String)
  | badStatus (status : Nat)
  | transport (msg : String)
  | badJson (msg : String)
  deriving DecidableEq, Repr

/-- What `apiGet` can throw:
* `httpError s` — the `new Error('HTTP ' + status)` recorded for a non-ok
  response;
* `caught m` — a caught exception (transport or JSON-parse failure);
* `noBackend` — the `new Error('No backend reachable')` default. -/
inductive ApiError where
  | httpError (status : Nat)
  | caught (msg : String)
  | noBackend
  deriving DecidableEq, Repr

/-- Returns `true` iff the attempt did not return a parsed body. -/
def Outcome.isFailure : Outcome → Bool
  | .ok _ => false
  | _ => true

/-- The `lastErr` value a failed attempt leaves behind (`ApiError.noBackend`
is a junk value on the unreachable `ok` branch). -/
def errOfOutcome : Outcome → ApiError
  | .ok _ => ApiError.noBackend
  | .badStatus s => ApiError.httpError s
  | .transport m => ApiError.caught m
  | .badJson m => ApiError.caught m

/-- The candidate loop of `apiGet`: `fetchAt` is the network (mapping a full
URL to its attempt outcome), `lastErr` the accumulator.  Returns the trace of
URLs actually attempted, in order, together with the parsed body of the first
success or the thrown error (`lastErr`, defaulting to `noBackend`). -/
def apiGetLoop (fetchAt : String → Outcome) (path : String) :
    List String → Option ApiError → List String × Except ApiError String
  | [], lastErr => ([], Except.error (lastErr.getD ApiError.noBackend))
  | base :: rest, _ =>
    let url := base ++ path
    match fetchAt url with
    | Outcome.ok body => ([url], Except.ok body)
    | Outcome.badStatus s =>
      let p := apiGetLoop fetchAt path rest (some (ApiError.httpError s))
      (url :: p.1, p.2)
    | Outcome.transport m =>
      let p := apiGetLoop fetchAt path rest (some (ApiError.caught m))
      (url :: p.1, p.2)
    | Outcome.badJson m =>
      let p := apiGetLoop fetchAt path rest (some (ApiError.caught m))
      (url :: p.1, p.2)

/-- Function `apiGet(path)` of `App.jsx`, abstracted over the candidate list `bases`
(in the source, `bases = tryDeriveBackendURLs()`) and the network `fetchAt`.
The first component of the result is the trace of attempted URLs. -/
def apiGet (fetchAt : String → Outcome) (path : String) (bases : List String) :
    List String × Except ApiError String :=
  apiGetLoop fetchAt path bases none

/-- The stages of the navigation state machine
(`menu | frontend-tech | frontend-projects | uiux-focus | uiux-gallery |
reviews | contact`). -/
inductive Stage where
  | menu
  | frontendTech
  | frontendProjects
  | uiuxFocus
  | uiuxGallery
  | reviews
  | contact
  deriving DecidableEq, Repr

/-- The React component state relevant to the claims: the current stage, the
five bootstrap resource collections, the selections, the two follow-up
collections, the loading flag and the error message (`""` = no error).
Items are opaque; they are modelled as strings. -/
structure AppState where
  stage : Stage
  menuItems : List String
  techItems : List String
  designFocus : List String
  reviews : List String
  contacts : List String
  selectedTech : Option String
  projects : List String
  selectedFocus : Option String
  gallery : List String
  loading : Bool
  error : String
  deriving DecidableEq, Repr

/-- The initial `useState` values. -/
def initState : AppState :=
  { stage := Stage.menu
    menuItems := []
    techItems := []
    designFocus := []
    reviews := []
    contacts := []
    selectedTech := none
    projects := []
    selectedFocus := none
    gallery := []
    loading := true
    error := "" }

/-- JS truthiness test used by `if (!selectedTech)`: `null`/`undefined` and
the empty string are falsy. -/
def optFalsy : Option String → Bool
  | none => true
  | some s => s = ""

/-- Result of one `apiGet` call as seen by a caller: either a thrown
`ApiError`, or the parsed JSON object, of which the caller only reads one
array-valued key (`items` / `projects`); `none` models that key being
absent (`res.items || []`). -/
abbrev FetchReply := Except ApiError (Option (List String))

/-- The `bootstrap` effect: `Promise.all` of the five fetches.  If all five
resolve, the five collections are stored (a missing key defaults to `[]`);
if any rejects, `Promise.all` rejects, no collection is stored, and the
single error notice is set.  `setLoading(true)`/`setError('')` run first and
`setLoading(false)` runs in `finally`. -/
def bootstrap (s : AppState)
    (menuR techR focusR reviewsR contactR : FetchReply) : AppState :=
  let s0 := { s with loading := true, error := "" }
  match menuR, techR, focusR, reviewsR, contactR with
  | Except.ok m, Except.ok t, Except.ok f, Except.ok r, Except.ok c =>
    { s0 with
      menuItems := m.getD []
      techItems := t.getD []
      designFocus := f.getD []
      reviews := r.getD []
      contacts := c.getD []
      loading := false }
  | _, _, _, _, _ =>
    { s0 with
      error := "Unable to reach backend. Set VITE_BACKEND_URL or retry in a moment."
      loading := false }

/-- Function `goBack` of `App.jsx`, mirroring the chain of `if` statements. -/
def goBack (s : AppState) : AppState :=
  if s.stage = Stage.frontendProjects then { s with stage := Stage.frontendTech }
  else if s.stage = Stage.frontendTech ∨ s.stage = Stage.uiuxFocus ∨
      s.stage = Stage.reviews ∨ s.stage = Stage.contact then
    { s with stage := Stage.menu }
  else if s.stage = Stage.uiuxGallery then { s with stage := Stage.uiuxFocus }
  else { s with stage := Stage.menu }

/-- Function `confirmTech` of `App.jsx`.  `r` is the result of
`apiGet('/api/projects?tech=...')` when it is issued.  The boolean records
whether a fetch was issued: with a falsy selection the function returns
before fetching.  On success the projects are stored (`data.projects || []`)
and the stage becomes `frontend-projects`; on failure the error message is
set; `finally` clears the loading flag. -/
def confirmTech (s : AppState) (r : FetchReply) : AppState × Bool :=
  if optFalsy s.selectedTech then (s, false)
  else
    match r with
    | Except.ok data =>
      ({ s with projects := data.getD [], stage := Stage.frontendProjects,
                loading := false }, true)
    | Except.error _ =>
      ({ s with error := "Could not load projects", loading := false }, true)

/-- Function `confirmFocus` of `App.jsx`, the `uiux` analogue of `confirmTech`
(`apiGet('/api/design/gallery?focus=...')`, `data.items || []`,
stage `uiux-gallery`, error `'Could not load gallery'`). -/
def confirmFocus (s : AppState) (r : FetchReply) : AppState × Bool :=
  if optFalsy s.selectedFocus then (s, false)
  else
    match r with
    | Except.ok data =>
      ({ s with gallery := data.getD [], stage := Stage.uiuxGallery,
                loading := false }, true)
    | Except.error _ =>
      ({ s with error := "Could not load gallery", loading := false }, true)

/-- The raw candidate list pushed by `tryDeriveBackendURLs` before the
empty-string fallback, normalisation and de-duplication: the optional
override, the unconditional port-substitution candidate, and the
Modal-style candidate guarded by `host.includes('-3000')`. -/
def rawCandidates (envUrl protocol host : String) : List String :=
  (if envUrl ≠ "" then [envUrl] else []) ++
    [protocol ++ "//" ++ replaceFirst host "3000" "8000"] ++
    (if includesStr host "-3000" then
      [protocol ++ "//" ++
        replaceFirst (replaceFirst host "-3000" "-8000") ".run" "-api.run"]
    else [])

/-- Discriminator on one bootstrap fetch result: did the `apiGet` promise
resolve? -/
def replyOk : FetchReply → Bool
  | Except.ok _ => true
  | Except.error _ => false

end Discovery

open Discovery

/-! Helper lemmas about the string and de-duplication primitives. -/

theorem mem_dedupFirstAux (a : String) (xs : List String) :
    ∀ seen, a ∈ dedupFirstAux seen xs ↔ a ∈ xs ∧ a ∉ seen := by
  induction xs with
  | nil => intro seen; simp [dedupFirstAux]
  | cons x rest ih =>
    intro seen
    by_cases hx : x ∈ seen
    · rw [dedupFirstAux, if_pos hx, ih seen]
      simp only [List.mem_cons]
      constructor
      · exact fun ⟨h1, h2⟩ => ⟨Or.inr h1, h2⟩
      · rintro ⟨h1 | h1, h2⟩
        · exact absurd (h1 ▸ hx) h2
        · exact ⟨h1, h2⟩
    · rw [dedupFirstAux, if_neg hx]
      simp only [List.mem_cons, ih (x :: seen)]
      by_cases hax : a = x
      · subst hax; simp [hx]
      · simp only [hax, false_or, List.mem_cons, not_or]

theorem mem_dedupFirst (a : String) (xs : List String) :
    a ∈ dedupFirst xs ↔ a ∈ xs := by
  rw [dedupFirst, mem_dedupFirstAux]
  simp

theorem dedupFirstAux_append_singleton (y : String) (xs : List String) :
    ∀ seen, y ∉ seen → y ∉ xs →
      dedupFirstAux seen (xs ++ [y]) = dedupFirstAux seen xs ++ [y] := by
  induction xs with
  | nil =>
    intro seen hseen _
    simp [dedupFirstAux, hseen]
  | cons x rest ih =>
    intro seen hseen hxs
    have hyx : y ≠ x := fun h => hxs (h ▸ List.mem_cons_self x rest)
    have hyrest : y ∉ rest := fun h => hxs (List.mem_cons_of_mem x h)
    by_cases hx : x ∈ seen
    · simp only [List.cons_append, dedupFirstAux, if_pos hx]
      exact ih seen hseen hyrest
    · simp only [List.cons_append, dedupFirstAux, if_neg hx]
      refine congrArg (fun l => x :: l) ?_
      have hys : y ∉ x :: seen := by
        intro hm
        rcases List.mem_cons.mp hm with hm | hm
        · exact hyx hm
        · exact hseen hm
      exact ih (x :: seen) hys hyrest

theorem dedupFirst_ne_nil (xs : List String) (h : xs ≠ []) : dedupFirst xs ≠ [] := by
  cases xs with
  | nil => exact absurd rfl h
  | cons x rest => simp [dedupFirst, dedupFirstAux]

theorem mem_replaceFirstL {c : Char} (pat rep : List Char) :
    ∀ s, c ∈ replaceFirstL pat rep s → c ∈ s ∨ c ∈ rep := by
  intro s
  induction s with
  | nil =>
    intro h
    rw [replaceFirstL] at h
    split at h
    · exact Or.inr h
    · simp at h
  | cons x rest ih =>
    intro h
    rw [replaceFirstL] at h
    split at h
    · rcases List.mem_append.mp h with h | h
      · exact Or.inr h
      · exact Or.inl (List.drop_subset _ _ h)
    · rcases List.mem_cons.mp h with h | h
      · exact Or.inl (h ▸ List.mem_cons_self x rest)
      · rcases ih h with h | h
        · exact Or.inl (List.mem_cons_of_mem x h)
        · exact Or.inr h

theorem replaceFirstL_ne_nil (pat rep : List Char) (s : List Char)
    (hs : s ≠ []) (hrep : rep ≠ []) : replaceFirstL pat rep s ≠ [] := by
  cases s with
  | nil => exact absurd rfl hs
  | cons x rest =>
    rw [replaceFirstL]
    split
    · exact fun h => hrep (List.append_eq_nil.mp h).1
    · simp

theorem replaceFirstL_of_not_contains (pat rep : List Char) :
    ∀ s, containsSubL pat s = false → replaceFirstL pat rep s = s := by
  intro s
  induction s with
  | nil =>
    intro h
    rw [containsSubL] at h
    rw [replaceFirstL, if_neg (by simp [h])]
  | cons x rest ih =>
    intro h
    rw [containsSubL] at h
    rcases Bool.or_eq_false_iff.mp h with ⟨h1, h2⟩
    rw [replaceFirstL, if_neg (by simp [h1]), ih h2]

theorem replaceFirst_of_not_includes (s pat rep : String)
    (h : includesStr s pat = false) : replaceFirst s pat rep = s :=
  congrArg String.mk (replaceFirstL_of_not_contains pat.data rep.data s.data h)

theorem data_ne_nil_of_ne_empty {s : String} (h : s ≠ "") : s.data ≠ [] := by
  intro hd
  exact h (by cases s; simp_all)

theorem stripTrailingSlash_eq_self {s : String} (h : s.data.getLast? ≠ some '/') :
    stripTrailingSlash s = s := by
  rw [stripTrailingSlash, if_neg h]

theorem stripTrailingSlash_ne_empty {s : String} (h : 2 ≤ s.data.length) :
    stripTrailingSlash s ≠ "" := by
  rw [stripTrailingSlash]
  split
  · intro hc
    have hd : s.data.dropLast = [] := congrArg String.data hc
    have hlen : s.data.dropLast.length = s.data.length - 1 :=
      List.length_dropLast s.data
    rw [hd] at hlen
    simp only [List.length_nil] at hlen
    omega
  · intro hc
    subst hc
    simp at h

theorem data_url (a b : String) :
    (a ++ "//" ++ b).data = (a.data ++ ['/', '/']) ++ b.data := by
  rw [String.data_append, String.data_append]

theorem url_strip_ne_empty (a b : String) :
    stripTrailingSlash (a ++ "//" ++ b) ≠ "" := by
  apply stripTrailingSlash_ne_empty
  rw [data_url]
  simp only [List.length_append, List.length_cons, List.length_nil]
  omega

theorem url_getLast_ne_slash (a b : String) (hb : b.data ≠ [])
    (hslash : '/' ∉ b.data) :
    (a ++ "//" ++ b).data.getLast? ≠ some '/' := by
  rw [data_url, List.getLast?_append]
  rw [List.getLast?_eq_getLast b.data hb]
  simp only [Option.or_some]
  intro h
  have hm := List.getLast_mem hb
  rw [Option.some_inj.mp h] at hm
  exact hslash hm

theorem tryDerive_eq (e p h : String) :
    tryDeriveBackendURLs e p h =
      dedupFirst ((rawCandidates e p h).map stripTrailingSlash ++ [""]) := by
  rw [tryDeriveBackendURLs, rawCandidates]
  have hs : stripTrailingSlash "" = "" := rfl
  by_cases he : e = "" <;> by_cases hinc : includesStr h "-3000" = true <;>
    simp [he, hinc, hs, List.map_append]

theorem resolver_split (e p h : String)
    (hEnv : e = "" ∨ stripTrailingSlash e ≠ "") :
    tryDeriveBackendURLs e p h =
      dedupFirst ((rawCandidates e p h).map stripTrailingSlash) ++ [""] := by
  rw [tryDerive_eq]
  have hnm : "" ∉ (rawCandidates e p h).map stripTrailingSlash := by
    intro hm
    rcases List.mem_map.mp hm with ⟨u, hu, hsu⟩
    rw [rawCandidates] at hu
    rcases List.mem_append.mp hu with hu | hu
    · rcases List.mem_append.mp hu with hu | hu
      · by_cases he : e = ""
        · rw [if_neg (by simp [he])] at hu
          simp at hu
        · rw [if_pos he] at hu
          rcases List.mem_singleton.mp hu with rfl
          rcases hEnv with h1 | h1
          · exact he h1
          · exact h1 hsu
      · rcases List.mem_singleton.mp hu with rfl
        exact url_strip_ne_empty _ _ hsu
    · split at hu
      · rcases List.mem_singleton.mp hu with rfl
        exact url_strip_ne_empty _ _ hsu
      · simp at hu
  rw [dedupFirst, dedupFirst,
    dedupFirstAux_append_singleton "" _ [] (by simp) hnm]

/-- C1 (counterexample): the host `a3000-3000.example` contains `-3000`,
contains no `.run` at all (so in particular does not end in `.run`), yet
the candidate list DOES contain the third, platform-hostname-rewrite
candidate (`https://a3000-8000.example`, i.e. the host with `-3000`
replaced by `-8000` and the — vacuous — `.run` substitution applied),
refuting the claim that it is produced only when both substitutions
apply. -/
theorem platform_rewrite_pushed_without_run_suffix :
    includesStr "a3000-3000.example" "-3000" = true ∧
    includesStr "a3000-3000.example" ".run" = false ∧
    ".run".data.isSuffixOf "a3000-3000.example".data = false ∧
    ("https:" ++ "//" ++
        replaceFirst (replaceFirst "a3000-3000.example" "-3000" "-8000")
          ".run" "-api.run")
      ∈ tryDeriveBackendURLs "" "https:" "a3000-3000.example" := by
  decide

/-- C1 (amended): the source guards the platform-hostname-rewrite candidate
only by `host.includes('-3000')`; the `.run` → `-api.run` substitution is
attempted unconditionally on the already-rewritten host and is a no-op when
`.run` is absent.  So for every override, protocol and host containing
`-3000`, the (normalised) rewrite candidate is in the returned list. -/
theorem platform_rewrite_candidate_mem (e p h : String)
    (hinc : includesStr h "-3000" = true) :
    stripTrailingSlash (p ++ "//" ++
        replaceFirst (replaceFirst h "-3000" "-8000") ".run" "-api.run")
      ∈ tryDeriveBackendURLs e p h := by
  rw [tryDerive_eq, mem_dedupFirst]
  apply List.mem_append.mpr
  left
  apply List.mem_map.mpr
  refine ⟨_, ?_, rfl⟩
  rw [rawCandidates]
  apply List.mem_append.mpr
  right
  rw [if_pos hinc]
  exact List.mem_singleton.mpr rfl

/-- C1 (witness): instantiation of `platform_rewrite_candidate_mem` at a
Modal-style host. -/
theorem platform_rewrite_candidate_mem_witness :
    stripTrailingSlash ("https:" ++ "//" ++
        replaceFirst (replaceFirst "shop-3000.modal.run" "-3000" "-8000")
          ".run" "-api.run")
      ∈ tryDeriveBackendURLs "" "https:" "shop-3000.modal.run" :=
  platform_rewrite_candidate_mem "" "https:" "shop-3000.modal.run" (by decide)

/-- C3 (counterexample): with the configured override `/` (which normalises
to the empty string) the empty-string candidate is present but FIRST, not
last: the claim fails for this override/host combination. -/
theorem fallback_not_last_for_slash_override :
    "" ∈ tryDeriveBackendURLs "/" "https:" "portfolio.example.com" ∧
    (tryDeriveBackendURLs "/" "https:" "portfolio.example.com").getLast?
      ≠ some "" := by
  decide

/-- C3 (amended): provided the configured override does not itself normalise
to the empty string (it is absent, or its trailing-slash-stripped form is
non-empty), the empty-string fallback is contained in the candidate list and
is its last element, for every protocol and host. -/
theorem fallback_present_and_last (e p h : String)
    (hEnv : e = "" ∨ stripTrailingSlash e ≠ "") :
    "" ∈ tryDeriveBackendURLs e p h ∧
    (tryDeriveBackendURLs e p h).getLast? = some "" := by
  rw [resolver_split e p h hEnv]
  exact ⟨List.mem_append.mpr (Or.inr (List.mem_singleton.mpr rfl)),
    List.getLast?_concat _⟩

/-- C3 (witness): instantiation of `fallback_present_and_last` with no
override. -/
theorem fallback_present_and_last_witness :
    "" ∈ tryDeriveBackendURLs "" "https:" "myapp-3000.example.run" ∧
    (tryDeriveBackendURLs "" "https:" "myapp-3000.example.run").getLast?
      = some "" :=
  fallback_present_and_last "" "https:" "myapp-3000.example.run" (Or.inl rfl)

/-- C9: the port-substitution candidate
`protocol + '//' + host.replace('3000', '8000')` (first occurrence only) is
always an element of the candidate list, for every host that is a real host
(non-empty, containing no `/`); and when the host does not contain `3000`
at all — so the substitution is the identity — the current origin itself
appears verbatim among the candidates strictly before the final
empty-string fallback (for any override that does not normalise to the
empty string). -/
theorem portsub_candidate_and_origin (e p h : String)
    (hne : h ≠ "") (hslash : '/' ∉ h.data) :
    (p ++ "//" ++ replaceFirst h "3000" "8000") ∈ tryDeriveBackendURLs e p h ∧
    (includesStr h "3000" = false →
      (e = "" ∨ stripTrailingSlash e ≠ "") →
      (p ++ "//" ++ h) ∈ (tryDeriveBackendURLs e p h).dropLast ∧
      (tryDeriveBackendURLs e p h).getLast? = some "") := by
  have hbne : (replaceFirst h "3000" "8000").data ≠ [] :=
    replaceFirstL_ne_nil _ _ _ (data_ne_nil_of_ne_empty hne) (by decide)
  have hbslash : '/' ∉ (replaceFirst h "3000" "8000").data := by
    intro hm
    rcases mem_replaceFirstL _ _ _ hm with hm | hm
    · exact hslash hm
    · exact absurd hm (by decide)
  have hstrip : stripTrailingSlash (p ++ "//" ++ replaceFirst h "3000" "8000")
      = p ++ "//" ++ replaceFirst h "3000" "8000" :=
    stripTrailingSlash_eq_self (url_getLast_ne_slash _ _ hbne hbslash)
  constructor
  · rw [tryDerive_eq, mem_dedupFirst]
    apply List.mem_append.mpr
    left
    apply List.mem_map.mpr
    refine ⟨p ++ "//" ++ replaceFirst h "3000" "8000", ?_, hstrip⟩
    rw [rawCandidates]
    apply List.mem_append.mpr
    left
    apply List.mem_append.mpr
    right
    exact List.mem_singleton.mpr rfl
  · intro hni hEnv
    have hid : replaceFirst h "3000" "8000" = h :=
      replaceFirst_of_not_includes _ _ _ hni
    rw [resolver_split e p h hEnv]
    refine ⟨?_, List.getLast?_concat _⟩
    rw [List.dropLast_concat, mem_dedupFirst]
    apply List.mem_map.mpr
    refine ⟨p ++ "//" ++ h, ?_, ?_⟩
    · rw [rawCandidates]
      apply List.mem_append.mpr
      left
      apply List.mem_append.mpr
      right
      rw [hid]
      exact List.mem_singleton.mpr rfl
    · rw [← hid]
      exact hstrip

/-- C9 (witness): instantiation of `portsub_candidate_and_origin` at a host
without `3000`, showing the origin sits before the final fallback. -/
theorem portsub_candidate_and_origin_witness :
    ("https:" ++ "//" ++ replaceFirst "example.org" "3000" "8000")
        ∈ tryDeriveBackendURLs "" "https:" "example.org" ∧
    (includesStr "example.org" "3000" = false →
      ("" = "" ∨ stripTrailingSlash "" ≠ "") →
      ("https:" ++ "//" ++ "example.org")
          ∈ (tryDeriveBackendURLs "" "https:" "example.org").dropLast ∧
      (tryDeriveBackendURLs "" "https:" "example.org").getLast? = some "") :=
  portsub_candidate_and_origin "" "https:" "example.org" (by decide) (by decide)

theorem apiGetLoop_first_success (fetchAt : String → Outcome) (path : String) :
    ∀ (bases : List String) (idx : Nat) (b body : String)
      (lastErr : Option ApiError),
      bases[idx]? = some b →
      fetchAt (b ++ path) = Outcome.ok body →
      (∀ i fb, i < idx → bases[i]? = some fb →
        (fetchAt (fb ++ path)).isFailure = true) →
      apiGetLoop fetchAt path bases lastErr =
        ((bases.take (idx + 1)).map (fun u => u ++ path), Except.ok body) := by
  intro bases
  induction bases with
  | nil => intro idx b body lastErr hidx; simp at hidx
  | cons x rest ih =>
    intro idx b body lastErr hidx hok hfail
    cases idx with
    | zero =>
      simp only [List.getElem?_cons_zero, Option.some_inj] at hidx
      subst hidx
      simp [apiGetLoop, hok]
    | succ n =>
      have hx : (fetchAt (x ++ path)).isFailure = true :=
        hfail 0 x (Nat.succ_pos n) (by simp)
      cases ho : fetchAt (x ++ path) with
      | ok body' => rw [ho] at hx; simp [Outcome.isFailure] at hx
      | badStatus s =>
        simp only [apiGetLoop, ho]
        rw [ih n b body (some (ApiError.httpError s))
          (by simpa using hidx) hok
          (fun i fb hi hg => hfail (i + 1) fb (Nat.succ_lt_succ hi)
            (by simpa using hg))]
        simp
      | transport m =>
        simp only [apiGetLoop, ho]
        rw [ih n b body (some (ApiError.caught m))
          (by simpa using hidx) hok
          (fun i fb hi hg => hfail (i + 1) fb (Nat.succ_lt_succ hi)
            (by simpa using hg))]
        simp
      | badJson m =>
        simp only [apiGetLoop, ho]
        rw [ih n b body (some (ApiError.caught m))
          (by simpa using hidx) hok
          (fun i fb hi hg => hfail (i + 1) fb (Nat.succ_lt_succ hi)
            (by simpa using hg))]
        simp

/-- C4: if the candidate at (0-based) index `idx` is the first whose attempt
returns a successful, JSON-parseable response — every earlier candidate's
attempt fails — then `apiGet` attempts exactly the first `idx + 1` candidate
URLs, in candidate order (so exactly `k = idx + 1` network attempts), and
returns that candidate's parsed body; candidates after position `idx` are
never attempted. -/
theorem apiGet_first_success (fetchAt : String → Outcome) (path : String)
    (bases : List String) (idx : Nat) (b body : String)
    (hidx : bases[idx]? = some b)
    (hok : fetchAt (b ++ path) = Outcome.ok body)
    (hfail : ∀ i fb, i < idx → bases[i]? = some fb →
      (fetchAt (fb ++ path)).isFailure = true) :
    apiGet fetchAt path bases =
      ((bases.take (idx + 1)).map (fun u => u ++ path), Except.ok body) :=
  apiGetLoop_first_success fetchAt path bases idx b body none hidx hok hfail

/-- C4 (witness): the spec's end-to-end scenario — candidates
`https://a`, `https://b`, `""`; only `https://b` succeeds: exactly two
attempts, in order, the parsed body is returned, the relative candidate is
never attempted. -/
theorem apiGet_first_success_witness :
    apiGet
      (fun u => if u = "https://b/api/menu" then Outcome.ok "MENU"
        else Outcome.badStatus 502)
      "/api/menu" ["https://a", "https://b", ""] =
      (["https://a/api/menu", "https://b/api/menu"], Except.ok "MENU") :=
  apiGet_first_success _ "/api/menu" ["https://a", "https://b", ""] 1
    "https://b" "MENU" (by decide) (by decide)
    (by
      intro i fb hi hg
      have hi0 : i = 0 := Nat.lt_one_iff.mp hi
      subst hi0
      simp only [List.getElem?_cons_zero, Option.some_inj] at hg
      subst hg
      decide)

theorem apiGetLoop_all_fail (fetchAt : String → Outcome) (path lastb : String) :
    ∀ (front : List String) (lastErr : Option ApiError),
      (∀ b ∈ front ++ [lastb], (fetchAt (b ++ path)).isFailure = true) →
      apiGetLoop fetchAt path (front ++ [lastb]) lastErr =
        ((front ++ [lastb]).map (fun u => u ++ path),
         Except.error (errOfOutcome (fetchAt (lastb ++ path)))) := by
  intro front
  induction front with
  | nil =>
    intro lastErr hfail
    have hl := hfail lastb (by simp)
    cases ho : fetchAt (lastb ++ path) with
    | ok body => rw [ho] at hl; simp [Outcome.isFailure] at hl
    | badStatus s => simp [apiGetLoop, ho, errOfOutcome]
    | transport m => simp [apiGetLoop, ho, errOfOutcome]
    | badJson m => simp [apiGetLoop, ho, errOfOutcome]
  | cons x front' ih =>
    intro lastErr hfail
    have hx : (fetchAt (x ++ path)).isFailure = true :=
      hfail x (by simp)
    have hrest : ∀ b ∈ front' ++ [lastb],
        (fetchAt (b ++ path)).isFailure = true :=
      fun b hb => hfail b (by simp_all)
    cases ho : fetchAt (x ++ path) with
    | ok body => rw [ho] at hx; simp [Outcome.isFailure] at hx
    | badStatus s =>
      simp only [List.cons_append, apiGetLoop, ho, List.append_eq]
      rw [ih (some (ApiError.httpError s)) hrest]
      simp
    | transport m =>
      simp only [List.cons_append, apiGetLoop, ho, List.append_eq]
      rw [ih (some (ApiError.caught m)) hrest]
      simp
    | badJson m =>
      simp only [List.cons_append, apiGetLoop, ho, List.append_eq]
      rw [ih (some (ApiError.caught m)) hrest]
      simp

/-- C5: on a non-empty candidate list (written `front ++ [lastb]`) in which
every candidate's attempt fails (non-successful status, transport failure or
JSON-parse failure), `apiGet` attempts all N candidate URLs in candidate
order and then fails with the single error recorded for the LAST candidate
— the aggregated error surfaces the last recorded failure. -/
theorem apiGet_all_fail (fetchAt : String → Outcome) (path lastb : String)
    (front : List String)
    (hfail : ∀ b ∈ front ++ [lastb], (fetchAt (b ++ path)).isFailure = true) :
    apiGet fetchAt path (front ++ [lastb]) =
      ((front ++ [lastb]).map (fun u => u ++ path),
       Except.error (errOfOutcome (fetchAt (lastb ++ path)))) :=
  apiGetLoop_all_fail fetchAt path lastb front none hfail

/-- C5 (witness): two candidates, a transport failure then an HTTP 503:
both are attempted, in order, and the error thrown is the HTTP 503 recorded
for the last candidate. -/
theorem apiGet_all_fail_witness :
    apiGet
      (fun u => if u = "https://a/api/menu" then Outcome.transport "ECONNREFUSED"
        else Outcome.badStatus 503)
      "/api/menu" (["https://a"] ++ [""]) =
      (["https://a/api/menu", "/api/menu"],
       Except.error (ApiError.httpError 503)) :=
  apiGet_all_fail _ "/api/menu" "" ["https://a"]
    (by
      intro b hb
      simp only [List.cons_append, List.nil_append, List.mem_cons,
        List.mem_singleton, List.not_mem_nil, or_false] at hb
      rcases hb with rfl | rfl <;> decide)

theorem apiGetLoop_ne_noBackend (fetchAt : String → Outcome) (path : String) :
    ∀ (bases : List String) (lastErr : Option ApiError),
      (lastErr = none → bases ≠ []) →
      (∀ e', lastErr = some e' → e' ≠ ApiError.noBackend) →
      (apiGetLoop fetchAt path bases lastErr).2 ≠
        Except.error ApiError.noBackend := by
  intro bases
  induction bases with
  | nil =>
    intro lastErr h1 h2
    cases lastErr with
    | none => exact absurd rfl (h1 rfl)
    | some e' =>
      simp only [apiGetLoop, Option.getD_some]
      intro hc
      have he := (Except.error.injEq _ _).mp hc
      exact h2 e' rfl he
  | cons x rest ih =>
    intro lastErr h1 h2
    cases ho : fetchAt (x ++ path) with
    | ok body => simp [apiGetLoop, ho]
    | badStatus s =>
      simp only [apiGetLoop, ho]
      exact ih (some (ApiError.httpError s)) (fun h => nomatch h)
        (fun e' he => by
          rw [Option.some_inj] at he
          subst he
          simp)
    | transport m =>
      simp only [apiGetLoop, ho]
      exact ih (some (ApiError.caught m)) (fun h => nomatch h)
        (fun e' he => by
          rw [Option.some_inj] at he
          subst he
          simp)
    | badJson m =>
      simp only [apiGetLoop, ho]
      exact ih (some (ApiError.caught m)) (fun h => nomatch h)
        (fun e' he => by
          rw [Option.some_inj] at he
          subst he
          simp)

theorem apiGet_trace_length (fetchAt : String → Outcome) (path : String)
    (bases : List String) (hne : bases ≠ []) :
    1 ≤ (apiGet fetchAt path bases).1.length := by
  cases bases with
  | nil => exact absurd rfl hne
  | cons x rest =>
    cases ho : fetchAt (x ++ path) <;> simp [apiGet, apiGetLoop, ho]

/-- C10: the resolver's candidate list is never empty (the empty-string
fallback is always pushed), so `apiGet`, called on the resolver's list,
always performs at least one network attempt; and the default
`'No backend reachable'` branch is unreachable — whenever the loop
completes without success, the thrown error is the recorded last error,
never `noBackend`. -/
theorem resolver_nonempty_no_default (fetchAt : String → Outcome)
    (e p h path : String) :
    tryDeriveBackendURLs e p h ≠ [] ∧
    1 ≤ (apiGet fetchAt path (tryDeriveBackendURLs e p h)).1.length ∧
    (apiGet fetchAt path (tryDeriveBackendURLs e p h)).2 ≠
      Except.error ApiError.noBackend := by
  have hne : tryDeriveBackendURLs e p h ≠ [] := by
    rw [tryDerive_eq]
    exact dedupFirst_ne_nil _ (by simp)
  refine ⟨hne, apiGet_trace_length fetchAt path _ hne, ?_⟩
  exact apiGetLoop_ne_noBackend fetchAt path _ none (fun _ => hne)
    (fun e' he => nomatch he)

/-- C2 (counterexample): the menu fetch succeeds with one item while the
tech fetch fails; `Promise.all` rejects, so the successful menu fetch's
items are NOT stored — the menu collection stays empty — refuting the claim
that each successful fetch's results are still stored.  The single error
notice is set. -/
theorem bootstrap_partial_failure_discards_successes :
    (bootstrap initState (Except.ok (some ["Frontend"]))
        (Except.error (ApiError.httpError 500)) (Except.ok (some []))
        (Except.ok (some [])) (Except.ok (some []))).menuItems = [] ∧
    (bootstrap initState (Except.ok (some ["Frontend"]))
        (Except.error (ApiError.httpError 500)) (Except.ok (some []))
        (Except.ok (some [])) (Except.ok (some []))).menuItems
      ≠ ["Frontend"] ∧
    (bootstrap initState (Except.ok (some ["Frontend"]))
        (Except.error (ApiError.httpError 500)) (Except.ok (some []))
        (Except.ok (some [])) (Except.ok (some []))).error
      = "Unable to reach backend. Set VITE_BACKEND_URL or retry in a moment." := by
  decide

/-- C2 (amended): bootstrap is all-or-nothing, not per-fetch.  When all five
fetches succeed, every collection is stored (a missing key defaults to the
empty sequence) and no error is surfaced; when ANY of the five fails,
`Promise.all` rejects, every collection keeps its previous value — the
results of the successful fetches are discarded — and the single
user-visible error notice is set.  Since the collections start empty, each
collection is empty after a failed bootstrap, but not because only the
failed ones were degraded. -/
theorem bootstrap_all_or_nothing (s : AppState)
    (mR tR fR rR cR : FetchReply) :
    (∀ m t f r c, mR = Except.ok m → tR = Except.ok t → fR = Except.ok f →
      rR = Except.ok r → cR = Except.ok c →
      bootstrap s mR tR fR rR cR =
        { s with
          menuItems := m.getD []
          techItems := t.getD []
          designFocus := f.getD []
          reviews := r.getD []
          contacts := c.getD []
          loading := false
          error := "" }) ∧
    ((replyOk mR = false ∨ replyOk tR = false ∨ replyOk fR = false ∨
        replyOk rR = false ∨ replyOk cR = false) →
      bootstrap s mR tR fR rR cR =
        { s with
          error := "Unable to reach backend. Set VITE_BACKEND_URL or retry in a moment."
          loading := false }) := by
  constructor
  · intro m t f r c hm ht hf hr hc
    subst hm; subst ht; subst hf; subst hr; subst hc
    rfl
  · intro hfail
    cases mR <;> cases tR <;> cases fR <;> cases rR <;> cases cR <;>
      simp_all [bootstrap, replyOk]

/-- C2 (witness): instantiation of `bootstrap_all_or_nothing` — a failing
menu fetch with four successes yields the degraded state. -/
theorem bootstrap_all_or_nothing_witness :
    bootstrap initState (Except.error (ApiError.caught "ECONNREFUSED"))
        (Except.ok (some ["React"])) (Except.ok (some []))
        (Except.ok (some [])) (Except.ok (some [])) =
      { initState with
        error := "Unable to reach backend. Set VITE_BACKEND_URL or retry in a moment."
        loading := false } :=
  (bootstrap_all_or_nothing initState _ _ _ _ _).2 (Or.inl rfl)

/-- C6: in stage `frontend-tech`, a confirm with no tech selected (`null` or
the falsy empty string) leaves the whole state unchanged and issues no
fetch; with a (truthy) tech selected, the resulting stage is
`frontend-projects` if and only if the projects fetch succeeds, and on
fetch failure the stage remains `frontend-tech` with the error message
`'Could not load projects'` surfaced. -/
theorem confirmTech_transitions (s : AppState) (r : FetchReply)
    (tech : String) (htech : tech ≠ "") :
    (confirmTech { s with stage := Stage.frontendTech, selectedTech := none } r
      = ({ s with stage := Stage.frontendTech, selectedTech := none }, false)) ∧
    (confirmTech { s with stage := Stage.frontendTech, selectedTech := some "" } r
      = ({ s with stage := Stage.frontendTech, selectedTech := some "" }, false)) ∧
    ((confirmTech { s with stage := Stage.frontendTech, selectedTech := some tech } r).1.stage = Stage.frontendProjects
      ↔ replyOk r = true) ∧
    (∀ err, (confirmTech { s with stage := Stage.frontendTech, selectedTech := some tech } (Except.error err)).1.stage
        = Stage.frontendTech ∧
      (confirmTech { s with stage := Stage.frontendTech, selectedTech := some tech } (Except.error err)).1.error
        = "Could not load projects") := by
  refine ⟨?_, ?_, ?_, ?_⟩
  · simp [confirmTech, optFalsy]
  · simp [confirmTech, optFalsy]
  · cases r with
    | ok d => simp [confirmTech, optFalsy, htech, replyOk]
    | error err => simp [confirmTech, optFalsy, htech, replyOk]
  · intro err
    constructor <;> simp [confirmTech, optFalsy, htech]

/-- C6 (witness): instantiation of `confirmTech_transitions` with a
successful projects fetch for the tech `React`. -/
theorem confirmTech_transitions_witness :
    (confirmTech { initState with stage := Stage.frontendTech, selectedTech := none } (Except.ok (some ["X"]))
      = ({ initState with stage := Stage.frontendTech, selectedTech := none }, false)) ∧
    (confirmTech { initState with stage := Stage.frontendTech, selectedTech := some "" } (Except.ok (some ["X"]))
      = ({ initState with stage := Stage.frontendTech, selectedTech := some "" }, false)) ∧
    ((confirmTech { initState with stage := Stage.frontendTech, selectedTech := some "React" } (Except.ok (some ["X"]))).1.stage
        = Stage.frontendProjects
      ↔ replyOk (Except.ok (some ["X"]) : FetchReply) = true) ∧
    (∀ err, (confirmTech { initState with stage := Stage.frontendTech, selectedTech := some "React" } (Except.error err)).1.stage
        = Stage.frontendTech ∧
      (confirmTech { initState with stage := Stage.frontendTech, selectedTech := some "React" } (Except.error err)).1.error
        = "Could not load projects") :=
  confirmTech_transitions initState (Except.ok (some ["X"])) "React"
    (by decide)

/-- C7: the back action, from every state: `frontend-projects` always goes
back to `frontend-tech` (never directly to `menu`); `uiux-gallery` goes
back to `uiux-focus`; `frontend-tech`, `uiux-focus`, `reviews` and
`contact` go back to `menu`. -/
theorem goBack_transitions (s : AppState) :
    (goBack { s with stage := Stage.frontendProjects }).stage
      = Stage.frontendTech ∧
    (goBack { s with stage := Stage.uiuxGallery }).stage = Stage.uiuxFocus ∧
    (goBack { s with stage := Stage.frontendTech }).stage = Stage.menu ∧
    (goBack { s with stage := Stage.uiuxFocus }).stage = Stage.menu ∧
    (goBack { s with stage := Stage.reviews }).stage = Stage.menu ∧
    (goBack { s with stage := Stage.contact }).stage = Stage.menu := by
  refine ⟨?_, ?_, ?_, ?_, ?_, ?_⟩ <;> simp [goBack]

/-- C8 (counterexample): a state in stage `frontend-tech` carrying the
surfaced error `'Could not load projects'` from a previous failed confirm;
the retried projects fetch succeeds — the stage moves to
`frontend-projects` and the projects are stored — yet the error field is
NOT cleared, refuting the claim that retry-success clears prior error
state. -/
theorem confirm_success_keeps_error :
    ((confirmTech { initState with stage := Stage.frontendTech, selectedTech := some "React", error := "Could not load projects" }
        (Except.ok (some ["X"]))).1.stage = Stage.frontendProjects) ∧
    ((confirmTech { initState with stage := Stage.frontendTech, selectedTech := some "React", error := "Could not load projects" }
        (Except.ok (some ["X"]))).1.projects = ["X"]) ∧
    ((confirmTech { initState with stage := Stage.frontendTech, selectedTech := some "React", error := "Could not load projects" }
        (Except.ok (some ["X"]))).1.error = "Could not load projects") ∧
    ((confirmTech { initState with stage := Stage.frontendTech, selectedTech := some "React", error := "Could not load projects" }
        (Except.ok (some ["X"]))).1.error ≠ "") := by
  decide

/-- C8 (amended): a successful `confirmTech` or `confirmFocus` leaves the
error field exactly as it was — success never clears prior error state (the
error message is only reset when a new bootstrap starts, and is overwritten
by the next failing confirm).  This holds for every state and every
successful reply. -/
theorem confirm_success_preserves_error (s : AppState)
    (d : Option (List String)) :
    (confirmTech s (Except.ok d)).1.error = s.error ∧
    (confirmFocus s (Except.ok d)).1.error = s.error ∧
    (bootstrap s (Except.ok d) (Except.ok d) (Except.ok d) (Except.ok d)
      (Except.ok d)).error = "" := by
  refine ⟨?_, ?_, rfl⟩
  · rw [confirmTech]
    split
    · rfl
    · rfl
  · rw [confirmFocus]
    split
    · rfl
    · rfl

/-- C7 (witness): instantiation of `goBack_transitions` at the initial
state. -/
theorem goBack_transitions_witness :
    (goBack { initState with stage := Stage.frontendProjects }).stage
      = Stage.frontendTech ∧
    (goBack { initState with stage := Stage.uiuxGallery }).stage
      = Stage.uiuxFocus ∧
    (goBack { initState with stage := Stage.frontendTech }).stage
      = Stage.menu ∧
    (goBack { initState with stage := Stage.uiuxFocus }).stage = Stage.menu ∧
    (goBack { initState with stage := Stage.reviews }).stage = Stage.menu ∧
    (goBack { initState with stage := Stage.contact }).stage = Stage.menu :=
  goBack_transitions initState

/-- C8 (witness): instantiation of `confirm_success_preserves_error` at a
state carrying a stale error message. -/
theorem confirm_success_preserves_error_witness :
    (confirmTech { initState with error := "Could not load projects" }
      (Except.ok (some ["X"]))).1.error
      = ({ initState with error := "Could not load projects" } : AppState).error ∧
    (confirmFocus { initState with error := "Could not load projects" }
      (Except.ok (some ["X"]))).1.error
      = ({ initState with error := "Could not load projects" } : AppState).error ∧
    (bootstrap { initState with error := "Could not load projects" }
      (Except.ok (some ["X"])) (Except.ok (some ["X"])) (Except.ok (some ["X"]))
      (Except.ok (some ["X"])) (Except.ok (some ["X"]))).error = "" :=
  confirm_success_preserves_error
    { initState with error := "Could not load projects" } (some ["X"])

/-- C10 (witness): instantiation of `resolver_nonempty_no_default` with a
network that always answers HTTP 500. -/
theorem resolver_nonempty_no_default_witness :
    tryDeriveBackendURLs "" "https:" "example.net" ≠ [] ∧
    1 ≤ (apiGet (fun _ => Outcome.badStatus 500) "/api/menu"
      (tryDeriveBackendURLs "" "https:" "example.net")).1.length ∧
    (apiGet (fun _ => Outcome.badStatus 500) "/api/menu"
      (tryDeriveBackendURLs "" "https:" "example.net")).2 ≠
      Except.error ApiError.noBackend :=
  resolver_nonempty_no_default (fun _ => Outcome.badStatus 500) ""
    "https:" "example.net" "/api/menu"

example : replaceFirst "a3000-3000.example" "3000" "8000" = "a8000-3000.example" := by decide

example : tryDeriveBackendURLs "" "https:" "myapp-3000.example.run" =
    ["https://myapp-8000.example.run", "https://myapp-8000.example-api.run", ""] := by decide

example : tryDeriveBackendURLs "/" "https:" "example.com" =
    ["", "https://example.com"] := by decide

example : tryDeriveBackendURLs "" "https:" "a3000-3000.example" =
    ["https://a8000-3000.example", "https://a3000-8000.example", ""] := by decide
